import Mathlib

/-!
Verification of the Interviewy client-side session orchestration core.

The definitions below are a shallow embedding of the session orchestration
hooks of the repository, chiefly the final `useInterviewLogic` variant and
the `useVideoRecorder` hook found in
`src/frontend/app/hooks/useVideoRecorder.ts`, together with the
`useTextToSpeech` and `useSpeechToText` child hooks.  React state is
modelled as an explicit record, each event handler as a pure function from
state to state paired with the ordered list of externally visible effects
(network requests, media stop commands, the termination notification) it
performs during that event-handling step.
-/

namespace Interviewy

/-- JS `String.prototype.startsWith`, modelled on the character list of the
string. -/
def strStartsWith (s pre : String) : Bool :=
  pre.data.isPrefixOf s.data

/-- JS `String.prototype.trim`: drop leading and trailing whitespace. -/
def strTrim (s : String) : String :=
  ⟨((s.data.dropWhile Char.isWhitespace).reverse.dropWhile Char.isWhitespace).reverse⟩

/-- Conversation turn speaker: the agent is called "alex" in the source. -/
inductive Speaker
  | alex
  | user
deriving DecidableEq

/-- One conversation turn (`type Message` in the source). -/
structure Turn where
  speaker : Speaker
  text : String
deriving DecidableEq

/-- Session launch mode. -/
inductive Mode
  | resume
  | position
  | evaluation
deriving DecidableEq

/-- Immutable session launch configuration (props of `useInterviewLogic`).
`evaluationKey = some ""` models a present-but-falsy key, mirroring the JS
truthiness test `mode === "evaluation" && evaluationKey`. -/
structure Config where
  mode : Mode
  userName : String
  evaluationKey : Option String
  durationMinutes : Option Nat
deriving DecidableEq

/-- Externally visible effects performed by the handlers, in program order:
network requests to the backend, media stop commands, and the `onEnd`
termination notification to the parent component. -/
inductive Effect
  | chatRequest (history : List Turn)
  | sttRequest (blobSize : Nat)
  | ttsRequest (text : String)
  | submitInterview (key : String) (history : List Turn)
  | uploadVideo (key : String)
  | stopSpeech
  | stopRecording
  | notifyEnd
deriving DecidableEq

/-- State owned by `useTextToSpeech`: the `isSpeaking` flag and whether the
shared `<audio>` element ref is populated. -/
structure TtsState where
  isSpeaking : Bool
  audioElPresent : Bool
deriving DecidableEq

/-- `stop` of `useTextToSpeech` (lines 99-110): if the audio element is
present, pause it and clear the speaking flag; otherwise do nothing. -/
def ttsStop (t : TtsState) : TtsState × List Effect :=
  if t.audioElPresent then
    ({ t with isSpeaking := false }, [Effect.stopSpeech])
  else
    (t, [])

/-- The non-speakable check at the top of `speak` in `useTextToSpeech`
(lines 117-123): empty text, whitespace-only text, or a known
error-sentinel prefix. -/
def nonSpeakable (text : String) : Bool :=
  text == "" || strTrim text == "" || strStartsWith text "Error:" ||
    strStartsWith text "An error occurred" || strStartsWith text "Sorry,"

/-- The synchronous request-issuing phase of `speak` in `useTextToSpeech`
(lines 113-155): always stop the previous utterance first; skip without a
TTS request when the text is non-speakable or the audio element is absent;
otherwise mark speaking and issue the TTS request. -/
def ttsSpeak (t : TtsState) (text : String) : TtsState × List Effect :=
  let s1 := ttsStop t
  if nonSpeakable text then
    ({ s1.1 with isSpeaking := false }, s1.2)
  else if s1.1.audioElPresent then
    ({ s1.1 with isSpeaking := true }, s1.2 ++ [Effect.ttsRequest text])
  else
    (s1.1, s1.2)

/-- State owned by `useSpeechToText`. -/
structure SttState where
  isRecording : Bool
  isTranscribing : Bool
deriving DecidableEq

/-- `stopRecording` of `useSpeechToText`: stop the recorder (or force the
flag off and release the stream when it is not recording).  Either way the
recording flag is false afterwards and the stop command is issued. -/
def sttStopRecording (st : SttState) : SttState × List Effect :=
  ({ st with isRecording := false }, [Effect.stopRecording])

/-- Live state of the session orchestrator (`useInterviewLogic`, final
variant in `useVideoRecorder.ts` lines 151-388). -/
structure OrchState where
  cfg : Config
  messages : List Turn
  isLoading : Bool
  errorState : Option String
  showExitModal : Bool
  timeLeft : Option Nat
  timerActive : Bool
  intentionalExit : Bool
  tts : TtsState
  stt : SttState
deriving DecidableEq

/-- Processing of a settled `/api/chat` response inside `sendToAI`
(lines 221-251 of the final variant).  `Except.error` is a transport or
server failure (the `catch` arm); `Except.ok r` with `r = ""` is the
falsy-reply branch appending the `(No response)` placeholder; otherwise the
trimmed reply is appended and spoken. -/
def sendToAIResponse (s : OrchState) (resp : Except String String) :
    OrchState × List Effect :=
  match resp with
  | Except.ok r =>
    if r == "" then
      ({ s with
          messages := s.messages ++ [{ speaker := Speaker.alex, text := "(No response)" }],
          isLoading := false }, [])
    else
      let t := strTrim r
      let sp := ttsSpeak s.tts t
      ({ s with
          messages := s.messages ++ [{ speaker := Speaker.alex, text := t }],
          tts := sp.1,
          isLoading := false }, sp.2)
  | Except.error msg =>
      ({ s with errorState := some msg, isLoading := false }, [])

/-- `recorder.onstop` of `useSpeechToText` (lines 546-603) combined with the
`onTranscript` and `onError` callbacks the orchestrator passes to it
(lines 263-279 of the final variant).  `blobSize` is the assembled audio
payload size in bytes; `resp` is the `/api/stt` outcome, consulted only
when a request is actually made.  A payload under 100 bytes is rejected
client-side with no network call; an empty trimmed transcript surfaces an
error and appends nothing; a nonempty transcript appends the user turn and
issues the chat request with the full updated history. -/
def handleRecordingStopped (s : OrchState) (blobSize : Nat)
    (resp : Except String String) : OrchState × List Effect :=
  let s0 := { s with stt := { isRecording := false, isTranscribing := true } }
  if blobSize < 100 then
    ({ s0 with
        errorState := some "No speech detected.",
        isLoading := false,
        stt := { s0.stt with isTranscribing := false } }, [])
  else
    match resp with
    | Except.ok raw =>
      if strTrim raw == "" then
        ({ s0 with
            errorState := some "Could not understand audio.",
            isLoading := false,
            stt := { s0.stt with isTranscribing := false } },
         [Effect.sttRequest blobSize])
      else
        let t := strTrim raw
        let msgs := s0.messages ++ [{ speaker := Speaker.user, text := t }]
        ({ s0 with
            messages := msgs,
            isLoading := true,
            errorState := none,
            stt := { s0.stt with isTranscribing := false } },
         [Effect.sttRequest blobSize, Effect.chatRequest msgs])
    | Except.error msg =>
        ({ s0 with
            errorState := some msg,
            isLoading := false,
            stt := { s0.stt with isTranscribing := false } },
         [Effect.sttRequest blobSize])

/-- `handleStartRecording` (lines 301-304): stop any agent speech, then
start recording. -/
def handleStartRecording (s : OrchState) : OrchState × List Effect :=
  let sp := ttsStop s.tts
  ({ s with tts := sp.1, stt := { s.stt with isRecording := true } }, sp.2)

/-- One firing of the countdown interval (timer effect, lines 179-193).
The interval exists only in evaluation mode with a non-null `timeLeft`;
its callback decrements positive values and clears the interval once the
remaining time is not positive, returning zero.  It performs no other
action: no callback, no session-end. -/
def timerTick (s : OrchState) : OrchState × List Effect :=
  if s.cfg.mode = Mode.evaluation then
    match s.timeLeft with
    | none => (s, [])
    | some p =>
      if s.timerActive then
        if p = 0 then ({ s with timerActive := false }, [])
        else ({ s with timeLeft := some (p - 1) }, [])
      else (s, [])
  else (s, [])

/-- `getStatusText` of the final variant (lines 351-360). -/
def getStatusText (s : OrchState) : String :=
  if s.showExitModal then "Paused. Please make a selection."
  else if s.timeLeft == some 0 then "Time is up. Wrap up your answer."
  else if s.stt.isRecording then "Listening... Speak now."
  else if s.stt.isTranscribing then "Processing your response..."
  else if s.isLoading then "Alex is thinking..."
  else if s.tts.isSpeaking then "Alex is speaking..."
  else
    match s.errorState with
    | some e => "Error: " ++ e
    | none => "It\x27s your turn. Press the mic to speak."

/-- `handleFullscreenChange` (lines 308-315): when fullscreen is gone and
the exit was not self-initiated, stop speech and recording and raise the
exit modal; afterwards, if the intentional-exit flag is set, clear it. -/
def handleFullscreenChange (s : OrchState) (fullscreenActive : Bool) :
    OrchState × List Effect :=
  let p :=
    if !fullscreenActive && !s.intentionalExit then
      let sp := ttsStop s.tts
      let st := sttStopRecording s.stt
      ({ s with tts := sp.1, stt := st.1, showExitModal := true }, sp.2 ++ st.2)
    else (s, [])
  if p.1.intentionalExit then ({ p.1 with intentionalExit := false }, p.2)
  else p

/-- `finishEvaluation` (lines 282-298): in evaluation mode with a truthy
key, await the transcript submission to `/api/submit_interview` first;
then set the intentional-exit flag, run `cleanupTts` (stops speech) and
`cleanupStt` (stops recording), and finally call `onEnd` to notify the
parent. -/
def finishEvaluation (s : OrchState) : OrchState × List Effect :=
  let submitEffs :=
    match s.cfg.mode, s.cfg.evaluationKey with
    | Mode.evaluation, some k =>
        if k == "" then [] else [Effect.submitInterview k s.messages]
    | _, _ => []
  let sp := ttsStop s.tts
  let st := sttStopRecording s.stt
  ({ s with intentionalExit := true, tts := sp.1, stt := st.1 },
   submitEffs ++ sp.2 ++ st.2 ++ [Effect.notifyEnd])

/-- `handleConfirmExit` (lines 317-321): close the modal and run the
finishing sequence. -/
def handleConfirmExit (s : OrchState) : OrchState × List Effect :=
  finishEvaluation { s with showExitModal := false }

/-- `handleRequestExit` (lines 328-332): stop speech and recording and show
the confirmation modal. -/
def handleRequestExit (s : OrchState) : OrchState × List Effect :=
  let sp := ttsStop s.tts
  let st := sttStopRecording s.stt
  ({ s with tts := sp.1, stt := st.1, showExitModal := true }, sp.2 ++ st.2)

/-- State of the `MediaRecorder` owned by `useVideoRecorder`. -/
inductive RecorderState
  | recording
  | inactive
deriving DecidableEq

/-- State owned by `useVideoRecorder`: the recorder ref (absent before
`startVideoRecording`) and whether the camera stream is live. -/
structure VideoState where
  recorder : Option RecorderState
  streamActive : Bool
deriving DecidableEq

/-- `startVideoRecording` (lines 15-47): acquire the stream and start a
fresh recorder. -/
def startVideoRecording (_v : VideoState) : VideoState :=
  { recorder := some RecorderState.recording, streamActive := true }

/-- `stopAndUploadVideo` (lines 50-103): if the recorder ref is null or the
recorder is already inactive, return immediately with no upload; otherwise
stop the recorder and stream and perform exactly one upload attempt of the
assembled recording. -/
def stopAndUploadVideo (v : VideoState) (accessKey : String) :
    VideoState × List Effect :=
  match v.recorder with
  | none => (v, [])
  | some RecorderState.inactive => (v, [])
  | some RecorderState.recording =>
      ({ recorder := some RecorderState.inactive, streamActive := false },
       [Effect.uploadVideo accessKey])

/-- A sequence of `stopAndUploadVideo` calls, threading the recorder state
and concatenating the effects. -/
def stopCalls (v : VideoState) (keys : List String) : VideoState × List Effect :=
  match keys with
  | [] => (v, [])
  | k :: rest =>
      let r := stopAndUploadVideo v k
      let q := stopCalls r.1 rest
      (q.1, r.2 ++ q.2)

/-- External events driving the orchestrator. -/
inductive Event
  | recStopped (blobSize : Nat) (sttResp : Except String String)
  | chatArrived (resp : Except String String)
  | pressMic
  | fsChange (fullscreenActive : Bool)
  | requestExit
  | confirmExit
  | cancelExit
  | clockTick

/-- Dispatch one event to its handler. -/
def step (s : OrchState) (e : Event) : OrchState × List Effect :=
  match e with
  | Event.recStopped n r => handleRecordingStopped s n r
  | Event.chatArrived r => sendToAIResponse s r
  | Event.pressMic => handleStartRecording s
  | Event.fsChange b => handleFullscreenChange s b
  | Event.requestExit => handleRequestExit s
  | Event.confirmExit => handleConfirmExit s
  | Event.cancelExit => ({ s with showExitModal := false }, [])
  | Event.clockTick => timerTick s

/-- Extract the history carried by a chat request effect. -/
def chatHistOf (e : Effect) : Option (List Turn) :=
  match e with
  | Effect.chatRequest h => some h
  | _ => none

/-- Run a list of events, recording for every chat request issued the pair
of (history sent with the request, transcript state right after the
emitting step). -/
def runTrace (s : OrchState) : List Event → List (List Turn × List Turn)
  | [] => []
  | e :: es =>
      let r := step s e
      (r.2.filterMap chatHistOf).map (fun h => (h, r.1.messages)) ++ runTrace r.1 es

/-- Count the effects satisfying a predicate. -/
def countEff (p : Effect → Bool) (l : List Effect) : Nat :=
  (l.filter p).length

def isSubmitEff : Effect → Bool
  | Effect.submitInterview _ _ => true
  | _ => false

def isNotifyEff : Effect → Bool
  | Effect.notifyEnd => true
  | _ => false

def isUploadEff : Effect → Bool
  | Effect.uploadVideo _ => true
  | _ => false

def isTtsReqEff : Effect → Bool
  | Effect.ttsRequest _ => true
  | _ => false

/-- Iterate the countdown interval `n` times, concatenating effects. -/
def runTicks (s : OrchState) : Nat → OrchState × List Effect
  | 0 => (s, [])
  | n + 1 =>
      let r := timerTick s
      let q := runTicks r.1 n
      (q.1, r.2 ++ q.2)

/-- A concrete evaluation-mode configuration used for witnesses and
counterexamples. -/
def evalConfig : Config :=
  { mode := Mode.evaluation
    userName := "Dana"
    evaluationKey := some "KEY1"
    durationMinutes := some 10 }

/-- A concrete evaluation-session state used for witnesses and
counterexamples. -/
def baseState : OrchState :=
  { cfg := evalConfig
    messages := [{ speaker := Speaker.alex, text := "Hello Dana" }]
    isLoading := false
    errorState := none
    showExitModal := false
    timeLeft := some 600
    timerActive := true
    intentionalExit := false
    tts := { isSpeaking := false, audioElPresent := true }
    stt := { isRecording := false, isTranscribing := false } }

/-! ## Supporting lemmas -/

/-- Stopping speech never issues a chat request. -/
lemma chatHist_ttsStop (t : TtsState) :
    (ttsStop t).2.filterMap chatHistOf = [] := by
  unfold ttsStop
  split <;> simp [chatHistOf]

/-- Speaking never issues a chat request. -/
lemma chatHist_ttsSpeak (t : TtsState) (x : String) :
    (ttsSpeak t x).2.filterMap chatHistOf = [] := by
  have h0 := chatHist_ttsStop t
  by_cases hn : nonSpeakable x = true
  · simp [ttsSpeak, hn, h0]
  · by_cases he : (ttsStop t).1.audioElPresent = true
    · simp [ttsSpeak, hn, he, List.filterMap_append, h0, chatHistOf]
    · simp [ttsSpeak, hn, he, h0]

/-- `stopAndUploadVideo` on a dead recorder is the identity. -/
lemma stopAndUploadVideo_dead (v : VideoState) (k : String)
    (h : v.recorder = none ∨ v.recorder = some RecorderState.inactive) :
    stopAndUploadVideo v k = (v, []) := by
  rcases h with h | h <;> simp [stopAndUploadVideo, h]

/-- Repeated stop calls starting from a dead recorder do nothing. -/
lemma stopCalls_dead (ks : List String) (v : VideoState)
    (h : v.recorder = none ∨ v.recorder = some RecorderState.inactive) :
    stopCalls v ks = (v, []) := by
  induction ks with
  | nil => rfl
  | cons k rest ih =>
      simp [stopCalls, stopAndUploadVideo_dead v k h, ih]

/-- Every chat request emitted during one event step carries exactly the
post-step transcript. -/
lemma step_chat_hist (s : OrchState) (e : Event) :
    ∀ h ∈ (step s e).2.filterMap chatHistOf, h = (step s e).1.messages := by
  cases e with
  | recStopped n r =>
      by_cases h : n < 100
      · simp [step, handleRecordingStopped, h, chatHistOf]
      · cases r with
        | ok raw =>
            by_cases ht : (strTrim raw == "") = true
            · simp [step, handleRecordingStopped, h, ht, chatHistOf]
            · simp [step, handleRecordingStopped, h, ht, chatHistOf]
        | error msg => simp [step, handleRecordingStopped, h, chatHistOf]
  | chatArrived r =>
      cases r with
      | ok x =>
          by_cases hx : (x == "") = true
          · simp [step, sendToAIResponse, hx, chatHistOf]
          · simp [step, sendToAIResponse, hx, chatHist_ttsSpeak]
      | error msg => simp [step, sendToAIResponse, chatHistOf]
  | pressMic => simp [step, handleStartRecording, chatHist_ttsStop]
  | fsChange b =>
      simp only [step, handleFullscreenChange]
      split
      · split
        · simp [List.filterMap_append, chatHist_ttsStop, sttStopRecording, chatHistOf]
        · simp [List.filterMap_append, chatHist_ttsStop, sttStopRecording, chatHistOf]
      · split
        · simp
        · simp
  | requestExit =>
      simp [step, handleRequestExit, List.filterMap_append, chatHist_ttsStop,
        sttStopRecording, chatHistOf]
  | confirmExit =>
      simp only [step, handleConfirmExit, finishEvaluation]
      split <;>
        simp [List.filterMap_append, chatHist_ttsStop, sttStopRecording, chatHistOf]
  | cancelExit => simp [step]
  | clockTick =>
      simp only [step, timerTick]
      split
      · split <;> (try split) <;> (try split) <;> simp
      · simp

/-- Each event step only ever appends to the transcript. -/
lemma step_messages_mono (s : OrchState) (e : Event) :
    ∃ tail, (step s e).1.messages = s.messages ++ tail := by
  cases e with
  | recStopped n r =>
      by_cases h : n < 100
      · exact ⟨[], by simp [step, handleRecordingStopped, h]⟩
      · cases r with
        | ok raw =>
            by_cases ht : (strTrim raw == "") = true
            · exact ⟨[], by simp [step, handleRecordingStopped, h, ht]⟩
            · exact ⟨[{ speaker := Speaker.user, text := strTrim raw }],
                by simp [step, handleRecordingStopped, h, ht]⟩
        | error msg => exact ⟨[], by simp [step, handleRecordingStopped, h]⟩
  | chatArrived r =>
      cases r with
      | ok x =>
          by_cases hx : (x == "") = true
          · exact ⟨[{ speaker := Speaker.alex, text := "(No response)" }],
              by simp [step, sendToAIResponse, hx]⟩
          · exact ⟨[{ speaker := Speaker.alex, text := strTrim x }],
              by simp [step, sendToAIResponse, hx]⟩
      | error msg => exact ⟨[], by simp [step, sendToAIResponse]⟩
  | pressMic => exact ⟨[], by simp [step, handleStartRecording]⟩
  | fsChange b =>
      refine ⟨[], ?_⟩
      simp only [step, handleFullscreenChange]
      split
      · split <;> simp
      · split <;> simp
  | requestExit => exact ⟨[], by simp [step, handleRequestExit]⟩
  | confirmExit =>
      exact ⟨[], by simp [step, handleConfirmExit, finishEvaluation]⟩
  | cancelExit => exact ⟨[], by simp [step]⟩
  | clockTick =>
      refine ⟨[], ?_⟩
      simp only [step, timerTick]
      split
      · split <;> (try split) <;> (try split) <;> simp
      · simp

/-! ## Claim theorems -/

/-- Claim C4: for every sequence of events, every chat request issued after
a user utterance carries exactly the ordered list of all turns appended so
far, including the just-appended user turn (the full transcript at that
moment, with no dropped, duplicated, or reordered entries); moreover every
event step only appends to the transcript. -/
theorem chat_request_full_transcript :
    (∀ (s : OrchState) (es : List Event),
        (runTrace s es).map Prod.fst = (runTrace s es).map Prod.snd) ∧
    (∀ (s : OrchState) (e : Event),
        ∃ tail, (step s e).1.messages = s.messages ++ tail) := by
  constructor
  · intro s es
    induction es generalizing s with
    | nil => rfl
    | cons e rest ih =>
        simp only [runTrace, List.map_append, List.map_map]
        rw [ih]
        congr 1
        apply List.map_congr_left
        intro h hmem
        simpa using step_chat_hist s e h hmem
  · exact step_messages_mono

/-- Claim C6: a recorded audio payload under the 100-byte threshold is
rejected client-side: no network request of any kind is made, the surfaced
error is the "No speech detected." message, and the transcript is
unchanged. -/
theorem small_audio_rejected_clientside (s : OrchState) (n : Nat)
    (resp : Except String String) (h : n < 100) :
    (handleRecordingStopped s n resp).2 = [] ∧
    (handleRecordingStopped s n resp).1.messages = s.messages ∧
    (handleRecordingStopped s n resp).1.errorState = some "No speech detected." := by
  simp [handleRecordingStopped, h]

/-- Witness for C6 at a concrete 50-byte payload. -/
theorem small_audio_rejected_clientside_witness :
    50 < 100 ∧
    ((handleRecordingStopped baseState 50 (Except.ok "hi")).2 = [] ∧
     (handleRecordingStopped baseState 50 (Except.ok "hi")).1.messages = baseState.messages ∧
     (handleRecordingStopped baseState 50 (Except.ok "hi")).1.errorState =
       some "No speech detected.") :=
  ⟨by decide, small_audio_rejected_clientside baseState 50 (Except.ok "hi") (by decide)⟩

/-- Claim C7: when the chat request fails at the transport level, the
orchestrator records the error, clears the loading flag (returning control
to the user), performs no further effect, and leaves everything else —
in particular the transcript — exactly as it was. -/
theorem chat_failure_appends_nothing (s : OrchState) (msg : String) :
    sendToAIResponse s (Except.error msg) =
      ({ s with errorState := some msg, isLoading := false }, []) := rfl

/-- Claim C10: `stopAndUploadVideo` with a null or inactive recorder is a
no-op performing no upload; a call on an active recorder leaves the
recorder inactive; hence any sequence of calls performs at most one upload
attempt. -/
theorem video_upload_at_most_once :
    (∀ (b : Bool) (k : String),
        stopAndUploadVideo { recorder := none, streamActive := b } k =
          ({ recorder := none, streamActive := b }, []) ∧
        stopAndUploadVideo { recorder := some RecorderState.inactive, streamActive := b } k =
          ({ recorder := some RecorderState.inactive, streamActive := b }, []) ∧
        (stopAndUploadVideo { recorder := some RecorderState.recording, streamActive := b } k).1.recorder =
          some RecorderState.inactive) ∧
    (∀ (v : VideoState) (ks : List String),
        countEff isUploadEff (stopCalls v ks).2 ≤ 1) := by
  constructor
  · intro b k
    refine ⟨rfl, rfl, rfl⟩
  · intro v ks
    obtain ⟨rec, stream⟩ := v
    cases rec with
    | none =>
        rw [stopCalls_dead ks _ (Or.inl rfl)]
        simp [countEff]
    | some rs =>
        cases rs with
        | inactive =>
            rw [stopCalls_dead ks _ (Or.inr rfl)]
            simp [countEff]
        | recording =>
            cases ks with
            | nil => simp [stopCalls, countEff]
            | cons k rest =>
                simp [stopCalls, stopAndUploadVideo,
                  stopCalls_dead rest
                    (⟨some RecorderState.inactive, false⟩ : VideoState) (Or.inr rfl),
                  countEff, isUploadEff]

/-- Claim C5: starting a recording always stops agent speech first: in any
state satisfying the invariant that speech only plays through a present
audio element, the start-recording handler leaves the active-speech flag
false and the recording flag true. -/
theorem barge_in_stops_speech (s : OrchState)
    (hinv : s.tts.isSpeaking = true → s.tts.audioElPresent = true) :
    (handleStartRecording s).1.tts.isSpeaking = false ∧
    (handleStartRecording s).1.stt.isRecording = true := by
  cases hel : s.tts.audioElPresent with
  | false =>
      have hsp : s.tts.isSpeaking = false := by
        cases hsp2 : s.tts.isSpeaking
        · rfl
        · exact absurd (hinv hsp2) (by simp [hel])
      simp [handleStartRecording, ttsStop, hel, hsp]
  | true => simp [handleStartRecording, ttsStop, hel]

/-- A concrete state in which the agent is speaking, used to witness C5. -/
def speakingState : OrchState :=
  { baseState with tts := { isSpeaking := true, audioElPresent := true } }

/-- Witness for C5: barge-in from a state where the agent is speaking. -/
theorem barge_in_stops_speech_witness :
    (speakingState.tts.isSpeaking = true → speakingState.tts.audioElPresent = true) ∧
    ((handleStartRecording speakingState).1.tts.isSpeaking = false ∧
     (handleStartRecording speakingState).1.stt.isRecording = true) :=
  ⟨fun _ => rfl, barge_in_stops_speech speakingState (fun _ => rfl)⟩

/-- Claim C8: speaking text that is empty, whitespace-only, or begins with
a known error-sentinel prefix issues no TTS request and leaves the
speaking flag false; and a sentinel agent reply is still appended to the
transcript by the chat-response handler while no TTS request is made. -/
theorem sentinel_reply_not_spoken (s : OrchState) (text r : String)
    (hts : nonSpeakable text = true) (hr : (r == "") = false)
    (hrs : nonSpeakable (strTrim r) = true) :
    ((ttsSpeak s.tts text).2.filter isTtsReqEff = [] ∧
      (ttsSpeak s.tts text).1.isSpeaking = false) ∧
    ((sendToAIResponse s (Except.ok r)).1.messages =
        s.messages ++ [{ speaker := Speaker.alex, text := strTrim r }] ∧
      (sendToAIResponse s (Except.ok r)).2.filter isTtsReqEff = []) := by
  constructor
  · cases hel : s.tts.audioElPresent <;>
      simp [ttsSpeak, ttsStop, hel, hts, isTtsReqEff]
  · cases hel : s.tts.audioElPresent <;>
      simp [sendToAIResponse, hr, ttsSpeak, ttsStop, hel, hrs, isTtsReqEff]

/-- Witness for C8 at concrete sentinel strings. -/
theorem sentinel_reply_not_spoken_witness :
    nonSpeakable "Error: network down" = true ∧
    (("Sorry, an error occurred: 500" : String) == "") = false ∧
    nonSpeakable (strTrim "Sorry, an error occurred: 500") = true ∧
    (((ttsSpeak baseState.tts "Error: network down").2.filter isTtsReqEff = [] ∧
      (ttsSpeak baseState.tts "Error: network down").1.isSpeaking = false) ∧
     ((sendToAIResponse baseState (Except.ok "Sorry, an error occurred: 500")).1.messages =
        baseState.messages ++
          [{ speaker := Speaker.alex, text := strTrim "Sorry, an error occurred: 500" }] ∧
      (sendToAIResponse baseState (Except.ok "Sorry, an error occurred: 500")).2.filter
        isTtsReqEff = [])) :=
  ⟨by decide, by decide, by decide,
   sentinel_reply_not_spoken baseState "Error: network down"
     "Sorry, an error occurred: 500" (by decide) (by decide) (by decide)⟩

/-- Claim C9: a platform fullscreen exit with the intentional-exit flag
clear pauses the session in the same event-handling step — the exit modal
is raised and both speech and recording are stopped — while a
self-initiated exit (flag set) raises no pause and merely clears the flag
on the next observed fullscreen-change event. -/
theorem fullscreen_exit_pause (s : OrchState)
    (hel : s.tts.audioElPresent = true) :
    (s.intentionalExit = false →
      handleFullscreenChange s false =
        ({ s with showExitModal := true,
                  tts := { s.tts with isSpeaking := false },
                  stt := { s.stt with isRecording := false } },
         [Effect.stopSpeech, Effect.stopRecording])) ∧
    (∀ b : Bool, s.intentionalExit = true →
      handleFullscreenChange s b = ({ s with intentionalExit := false }, [])) := by
  constructor
  · intro hflag
    simp [handleFullscreenChange, hflag, ttsStop, hel, sttStopRecording]
  · intro b hflag
    cases b <;> simp [handleFullscreenChange, hflag]

/-- Witness for C9 at the concrete base state (flag clear, element
present). -/
theorem fullscreen_exit_pause_witness :
    baseState.tts.audioElPresent = true ∧
    (baseState.intentionalExit = false →
      handleFullscreenChange baseState false =
        ({ baseState with
            showExitModal := true,
            tts := { baseState.tts with isSpeaking := false },
            stt := { baseState.stt with isRecording := false } },
         [Effect.stopSpeech, Effect.stopRecording])) :=
  ⟨rfl, (fullscreen_exit_pause baseState rfl).1⟩

/-- Counterexample to claim C1: triggering the finishing sequence twice in
succession from a concrete evaluation session performs two transcript
submission attempts and two termination notifications — not exactly one of
each — and zero video upload attempts, so no one-shot latch guards
`finishEvaluation`. -/
theorem finish_twice_not_single :
    countEff isSubmitEff
        ((finishEvaluation baseState).2 ++
          (finishEvaluation (finishEvaluation baseState).1).2) = 2 ∧
    countEff isNotifyEff
        ((finishEvaluation baseState).2 ++
          (finishEvaluation (finishEvaluation baseState).1).2) = 2 ∧
    countEff isUploadEff
        ((finishEvaluation baseState).2 ++
          (finishEvaluation (finishEvaluation baseState).1).2) = 0 := by
  decide

/-- Claim C1 as amended: `finishEvaluation` carries no one-shot latch —
every invocation in evaluation mode with a truthy key performs exactly one
transcript submission attempt, exactly one termination notification, and
no video upload, so N triggers produce N submissions and N notifications;
only the video-upload component is at-most-once, via the inactive-recorder
guard of `stopAndUploadVideo`. -/
theorem finish_per_call_effects (s : OrchState) (k : String)
    (hm : s.cfg.mode = Mode.evaluation) (hk : s.cfg.evaluationKey = some k)
    (hke : (k == "") = false) :
    countEff isSubmitEff (finishEvaluation s).2 = 1 ∧
    countEff isNotifyEff (finishEvaluation s).2 = 1 ∧
    countEff isUploadEff (finishEvaluation s).2 = 0 := by
  cases hel : s.tts.audioElPresent <;>
    simp [finishEvaluation, hm, hk, hke, ttsStop, sttStopRecording, hel,
      countEff, isSubmitEff, isNotifyEff, isUploadEff]

/-- Witness for the amended C1 at the concrete base state. -/
theorem finish_per_call_effects_witness :
    baseState.cfg.mode = Mode.evaluation ∧
    baseState.cfg.evaluationKey = some "KEY1" ∧
    (("KEY1" : String) == "") = false ∧
    (countEff isSubmitEff (finishEvaluation baseState).2 = 1 ∧
     countEff isNotifyEff (finishEvaluation baseState).2 = 1 ∧
     countEff isUploadEff (finishEvaluation baseState).2 = 0) :=
  ⟨rfl, rfl, by decide,
   finish_per_call_effects baseState "KEY1" rfl rfl (by decide)⟩

/-- Counterexample to claim C2: at a concrete evaluation session the
finishing sequence emits, in order, the transcript submission first, then
the speech stop, then the recording stop, then the termination
notification — speech is not stopped first, and termination is notified
although no video upload attempt appears anywhere in the sequence. -/
theorem finish_order_counterexample :
    (finishEvaluation baseState).2 =
      [Effect.submitInterview "KEY1" [{ speaker := Speaker.alex, text := "Hello Dana" }],
       Effect.stopSpeech, Effect.stopRecording, Effect.notifyEnd] ∧
    countEff isUploadEff (finishEvaluation baseState).2 = 0 ∧
    countEff isNotifyEff (finishEvaluation baseState).2 = 1 := by
  decide

/-- Claim C2 as amended: during Finishing the orchestrator first awaits the
transcript submission attempt (evaluation mode with a truthy key), then
stops speech, then stops recording, and notifies the presentation layer
last; it neither performs nor awaits any video upload, so termination is
reported without any video upload attempt having settled. -/
theorem finish_effect_order (s : OrchState) (k : String)
    (hm : s.cfg.mode = Mode.evaluation) (hk : s.cfg.evaluationKey = some k)
    (hke : (k == "") = false) (hel : s.tts.audioElPresent = true) :
    (finishEvaluation s).2 =
      [Effect.submitInterview k s.messages, Effect.stopSpeech,
       Effect.stopRecording, Effect.notifyEnd] := by
  simp [finishEvaluation, hm, hk, hke, ttsStop, sttStopRecording, hel]

/-- Witness for the amended C2 at the concrete base state. -/
theorem finish_effect_order_witness :
    baseState.cfg.mode = Mode.evaluation ∧
    baseState.cfg.evaluationKey = some "KEY1" ∧
    (("KEY1" : String) == "") = false ∧
    baseState.tts.audioElPresent = true ∧
    (finishEvaluation baseState).2 =
      [Effect.submitInterview "KEY1" baseState.messages, Effect.stopSpeech,
       Effect.stopRecording, Effect.notifyEnd] :=
  ⟨rfl, rfl, by decide, rfl,
   finish_effect_order baseState "KEY1" rfl rfl (by decide) rfl⟩

/-- Counterexample to claim C3: running the countdown of a concrete
5-second evaluation session for 6 ticks drives the remaining time to zero
and clears the interval, yet performs no effect whatsoever — no expiry
signal, no transcript submission, no termination notification: the
orchestrator does not enter the Finishing sequence on its own; the status
line merely switches to the wrap-up prompt. -/
theorem countdown_no_finish_counterexample :
    (runTicks { baseState with timeLeft := some 5 } 6).1.timeLeft = some 0 ∧
    (runTicks { baseState with timeLeft := some 5 } 6).1.timerActive = false ∧
    (runTicks { baseState with timeLeft := some 5 } 6).2 = [] ∧
    getStatusText (runTicks { baseState with timeLeft := some 5 } 6).1 =
      "Time is up. Wrap up your answer." := by
  decide

/-- Claim C3 as amended: the countdown decrements once per tick while
positive and stops ticking at zero, but reaching zero fires no expiry
signal and does not enter the Finishing sequence: every tick is
effect-free, and at zero the orchestrator only shows the wrap-up status
text, leaving the user to exit manually. -/
theorem countdown_behavior (s : OrchState) (p : Nat)
    (hm : s.cfg.mode = Mode.evaluation) (ha : s.timerActive = true)
    (ht : s.timeLeft = some p) :
    (timerTick s).2 = [] ∧
    (0 < p → (timerTick s).1.timeLeft = some (p - 1) ∧
      (timerTick s).1.timerActive = true) ∧
    (p = 0 → (timerTick s).1.timeLeft = some 0 ∧
      (timerTick s).1.timerActive = false) ∧
    (s.showExitModal = false → p = 0 →
      getStatusText s = "Time is up. Wrap up your answer.") := by
  refine ⟨?_, ?_, ?_, ?_⟩
  · by_cases hp : p = 0 <;> simp [timerTick, hm, ha, ht, hp]
  · intro hp
    have hp0 : p ≠ 0 := Nat.pos_iff_ne_zero.mp hp
    simp [timerTick, hm, ha, ht, hp0]
  · intro hp
    simp [timerTick, hm, ha, ht, hp]
  · intro hmodal hp
    subst hp
    simp [getStatusText, hmodal, ht]

/-- Witness for the amended C3 at a concrete expired state. -/
theorem countdown_behavior_witness :
    ({ baseState with timeLeft := some 0 } : OrchState).cfg.mode = Mode.evaluation ∧
    ({ baseState with timeLeft := some 0 } : OrchState).timerActive = true ∧
    ({ baseState with timeLeft := some 0 } : OrchState).timeLeft = some 0 ∧
    ((timerTick { baseState with timeLeft := some 0 }).2 = [] ∧
     (timerTick { baseState with timeLeft := some 0 }).1.timerActive = false ∧
     getStatusText { baseState with timeLeft := some 0 } =
       "Time is up. Wrap up your answer.") :=
  ⟨rfl, rfl, rfl,
   (countdown_behavior { baseState with timeLeft := some 0 } 0 rfl rfl rfl).1,
   ((countdown_behavior { baseState with timeLeft := some 0 } 0 rfl rfl rfl).2.2.1 rfl).2,
   (countdown_behavior { baseState with timeLeft := some 0 } 0 rfl rfl rfl).2.2.2 rfl rfl⟩

end Interviewy
